import Mathlib

/-!
# Verification of `examples/csj/s5/exp/training/train.py`

A shallow embedding of the CSJ training driver script.  The script's control
flow (the `main` function's setup phase and its `while True` training loop) is
translated into executable Lean definitions; the collaborator modules
(model, dataset iteration, CER/WER scoring, the learning-rate controller)
are treated as oracles whose answers arrive through the per-iteration input
record.  Python floats are modelled as rationals, and the side effects the
claims talk about (checkpoint saves, metric evaluations, dev-loss logs,
learning-rate decay calls, the final `COMPLETE` marker) are recorded in an
explicit action trace.
-/

namespace CsjTrain

/-- Python exceptions that the embedded fragments of `main` can raise. -/
inductive PyError where
  /-- `raise ValueError(msg)` (train.py line 65 / line 200). -/
  | valueError (msg : String) : PyError
  /-- Line 299 reads `param['pretrain_stage']` where the name should be
  `params`: at that point `param` is either unbound (NameError) or the
  tensor leaked from the `for name, param in model.named_parameters()`
  loop at line 264, which cannot be indexed by a string (TypeError).
  Either way evaluating the expression raises. -/
  | nameError (name : String) : PyError
  deriving Repr, DecidableEq

/-- The configuration values (from the `.yml` config file) that the training
loop of `train.py` reads. -/
structure Params where
  learningRate : ℚ
  printStep : ℕ
  evalStartEpoch : ℕ
  notImprovedPatientEpoch : ℕ
  numEpoch : ℕ
  convertToSgdEpoch : ℕ
  labelType : String
  pretrainStage : Bool
  deriving Repr, DecidableEq

/-- Python's `'word' in s` substring test, specialised to the needle
`'word'` used at train.py lines 299 and 328. -/
def hasWordSub : List Char → Bool
  | [] => false
  | c :: rest => List.isPrefixOf (String.toList "word") (c :: rest) || hasWordSub rest

/-- `'word' in params['label_type']` (train.py lines 299, 328). -/
def hasWord (s : String) : Bool := hasWordSub s.toList

/-- The mutable state of `main`'s training loop: `epoch`, `step`,
`learning_rate`, `metric_dev_best`, `not_improved_epoch`,
`loss_train_mean` (train.py lines 168-170, 235-236). -/
structure LoopState where
  epoch : ℕ
  step : ℕ
  learningRate : ℚ
  metricDevBest : ℚ
  notImprovedEpoch : ℕ
  lossTrainMean : ℚ
  deriving Repr, DecidableEq

/-- The oracle answers one iteration of the `while True` loop consumes:
the training loss of this gradient step (`train_step`, line 241), whether
`train_data.next()` signalled an epoch boundary (line 240), the dev-set
loss computed when logging triggers (line 251), the dev metric that
`do_eval_cer` / `do_eval_wer` would return at an epoch boundary
(lines 300 / 309), and the learning rate `lr_controller.decay_lr`
returns (line 400). -/
structure StepInput where
  lossTrain : ℚ
  isNewEpoch : Bool
  devLoss : ℚ
  devMetric : ℚ
  lrDecayed : ℚ
  deriving Repr, DecidableEq

/-- The observable effects of the training loop that the claims mention. -/
inductive Action where
  /-- The `print_step` log block (lines 247-279): the averaged training
  loss and the dev loss that are recorded and logged. -/
  | logDevLoss (lossTrainMean lossDev : ℚ) : Action
  /-- `plot_loss` at each epoch boundary (line 289). -/
  | plotLoss : Action
  /-- `model.save_checkpoint(model.save_path, epoch, step, learning_rate,
  metric_dev_best)` (lines 294, 324). -/
  | saveCheckpoint (epoch step : ℕ) (lr best : ℚ) : Action
  /-- `do_eval_cer` on the dev set (line 309), returning metric `m`. -/
  | evalDevCER (m : ℚ) : Action
  /-- `do_eval_cer` on `eval1_data` / `eval2_data` / `eval3_data`
  (lines 359, 368, 377). -/
  | evalTestCER (which : ℕ) : Action
  /-- `lr_controller.decay_lr(optimizer, learning_rate, epoch, value)`
  (lines 400-404), recording the arguments passed. -/
  | decayLR (lr : ℚ) (epoch : ℕ) (value : ℚ) : Action
  /-- `model.set_optimizer('sgd', ...)` at `convert_to_sgd_epoch`
  (lines 406-415). -/
  | convertToSGD : Action
  /-- Writing the empty `COMPLETE` file (lines 440-441). -/
  | writeComplete : Action
  deriving Repr, DecidableEq

/-- What one iteration of the `while True` loop does to control flow. -/
inductive IterResult where
  /-- Fall through to the next iteration. -/
  | next (s : LoopState) : IterResult
  /-- One of the two `break`s was taken (line 397 or line 427). -/
  | stop (s : LoopState) : IterResult
  /-- An exception propagated out of the loop. -/
  | crash (e : PyError) : IterResult
  deriving Repr, DecidableEq

/-- The tail of the epoch-boundary handling once a dev metric has been
computed (train.py lines 396-431): the early-stopping check, the
`decay_lr` call, the SGD conversion, the `num_epoch` check and the epoch
increment.  `notImp` and `best` are the already-updated
`not_improved_epoch` and `metric_dev_best`, `m` is this epoch's dev
metric, `step1` the already-incremented step counter and `lossMean2` the
possibly-reset `loss_train_mean`. -/
def epochTail (p : Params) (s : LoopState) (i : StepInput)
    (notImp : ℕ) (best m : ℚ) (step1 : ℕ) (lossMean2 : ℚ) :
    List Action × IterResult :=
  if notImp = p.notImprovedPatientEpoch then
    ([], IterResult.stop
      { epoch := s.epoch, step := step1, learningRate := s.learningRate,
        metricDevBest := best, notImprovedEpoch := notImp,
        lossTrainMean := lossMean2 })
  else
    let acts := [Action.decayLR s.learningRate s.epoch m] ++
      (if s.epoch = p.convertToSgdEpoch then [Action.convertToSGD] else [])
    if s.epoch = p.numEpoch then
      (acts, IterResult.stop
        { epoch := s.epoch, step := step1, learningRate := i.lrDecayed,
          metricDevBest := best, notImprovedEpoch := notImp,
          lossTrainMean := lossMean2 })
    else
      (acts, IterResult.next
        { epoch := s.epoch + 1, step := step1, learningRate := i.lrDecayed,
          metricDevBest := best, notImprovedEpoch := notImp,
          lossTrainMean := lossMean2 })

/-- One iteration of `main`'s `while True` loop (train.py lines 238-431). -/
def loopIter (p : Params) (s : LoopState) (i : StepInput) :
    List Action × IterResult :=
  -- lines 241-243: train_step and loss accumulation
  let lossMean1 := s.lossTrainMean + i.lossTrain
  -- lines 247-279: periodic dev-loss logging
  let logActs :=
    if (s.step + 1) % p.printStep = 0 then
      [Action.logDevLoss (lossMean1 / (p.printStep : ℚ)) i.devLoss]
    else []
  let lossMean2 := if (s.step + 1) % p.printStep = 0 then (0 : ℚ) else lossMean1
  -- line 280: step += 1
  let step1 := s.step + 1
  if i.isNewEpoch then
    -- line 289: plot_loss
    let preActs := logActs ++ [Action.plotLoss]
    if s.epoch < p.evalStartEpoch then
      -- lines 292-295: unconditional checkpoint before evaluation starts
      let acts := preActs ++
        [Action.saveCheckpoint s.epoch step1 s.learningRate s.metricDevBest]
      -- lines 426-431: num_epoch check and epoch increment
      if s.epoch = p.numEpoch then
        (acts, IterResult.stop { s with step := step1, lossTrainMean := lossMean2 })
      else
        (acts, IterResult.next
          { s with step := step1, lossTrainMean := lossMean2, epoch := s.epoch + 1 })
    else
      -- line 299: `'word' in params['label_type'] and not bool(param['pretrain_stage'])`.
      -- When the substring test is True, Python must evaluate
      -- `param['pretrain_stage']`, which raises (`param` is a typo for `params`).
      if hasWord p.labelType then
        (preActs, IterResult.crash (PyError.nameError "param"))
      else
        -- lines 309-316: do_eval_cer on the dev set
        let m := i.devMetric
        let evalActs := preActs ++ [Action.evalDevCER m]
        if m < s.metricDevBest then
          -- lines 318-325: new best, reset patience, checkpoint with the
          -- updated metric_dev_best
          let saveActs := evalActs ++
            [Action.saveCheckpoint s.epoch step1 s.learningRate m]
          -- lines 328-388: label_type contains no 'word' here (else line 299
          -- would have raised), so the CER branch evaluates eval1-eval3
          let testActs := saveActs ++
            [Action.evalTestCER 1, Action.evalTestCER 2, Action.evalTestCER 3]
          (testActs ++ (epochTail p s i 0 m m step1 lossMean2).1,
           (epochTail p s i 0 m m step1 lossMean2).2)
        else
          -- line 390: not_improved_epoch += 1
          (evalActs ++
             (epochTail p s i (s.notImprovedEpoch + 1) s.metricDevBest m step1 lossMean2).1,
           (epochTail p s i (s.notImprovedEpoch + 1) s.metricDevBest m step1 lossMean2).2)
  else
    (logActs, IterResult.next { s with step := step1, lossTrainMean := lossMean2 })

/-- The training loop, run over a finite list of oracle answers. -/
inductive Outcome where
  /-- The supplied inputs ran out with the loop still running. -/
  | running (s : LoopState) : Outcome
  /-- A `break` exited the loop. -/
  | stopped (s : LoopState) : Outcome
  /-- An exception propagated. -/
  | crashed (e : PyError) : Outcome
  deriving Repr, DecidableEq

/-- Run the `while True` loop on a list of per-iteration oracle answers,
collecting the action trace. -/
def runLoop (p : Params) : LoopState → List StepInput → List Action × Outcome
  | s, [] => ([], Outcome.running s)
  | s, i :: rest =>
    match loopIter p s i with
    | (acts, IterResult.next s1) =>
      let r := runLoop p s1 rest
      (acts ++ r.1, r.2)
    | (acts, IterResult.stop s1) => (acts, Outcome.stopped s1)
    | (acts, IterResult.crash e) => (acts, Outcome.crashed e)

/-- Whether the loop exited through one of its two `break`s. -/
def Outcome.isStopped : Outcome → Bool
  | Outcome.stopped _ => true
  | _ => false

/-- `main` from the start of the training loop to the end of the function:
after a normal loop exit the empty `COMPLETE` file is written
(train.py lines 439-441); an exception or a still-running loop writes
nothing. -/
def runMain (p : Params) (s : LoopState) (ins : List StepInput) :
    List Action × Outcome :=
  let r := runLoop p s ins
  (r.1 ++ (if r.2.isStopped then [Action.writeComplete] else []), r.2)

/-- The fresh-model initial state (train.py lines 168-170). -/
def freshState (p : Params) : LoopState :=
  { epoch := 1, step := 0, learningRate := p.learningRate,
    metricDevBest := 1, notImprovedEpoch := 0, lossTrainMean := 0 }

/-! ## The setup phase of `main` (train.py lines 53-200) -/

/-- A `Dataset(...)` construction in `main`, recording the arguments that
distinguish the five calls (train.py lines 68-126). -/
structure DatasetCfg where
  dataType : String
  sortUtt : Bool
  shuffle : Bool
  hasMaxEpoch : Bool
  deriving Repr, DecidableEq

/-- The five `Dataset` objects `main` constructs, in order (train.py lines
68-126): `train` (sort_utt=True, max_epoch=num_epoch), `dev`
(shuffle=True), `eval1`, `eval2`, `eval3`. -/
def builtDatasets : List DatasetCfg :=
  [ { dataType := "train", sortUtt := true, shuffle := false, hasMaxEpoch := true },
    { dataType := "dev", sortUtt := false, shuffle := true, hasMaxEpoch := false },
    { dataType := "eval1", sortUtt := false, shuffle := false, hasMaxEpoch := false },
    { dataType := "eval2", sortUtt := false, shuffle := false, hasMaxEpoch := false },
    { dataType := "eval3", sortUtt := false, shuffle := false, hasMaxEpoch := false } ]

/-- The values `model.load_checkpoint(save_path, epoch=-1, restart=True)`
returns when retraining (train.py line 196). -/
structure Checkpoint where
  epoch : ℕ
  step : ℕ
  learningRate : ℚ
  metricDevBest : ℚ
  deriving Repr, DecidableEq

/-- The observable events of `main`'s setup phase, in program order. -/
inductive SetupEvent where
  /-- `load_config` (line 60 or line 63); `fromSaved` is true for the
  retrain branch, which reads `saved_model_path/config.yml`. -/
  | loadConfig (fromSaved : Bool) : SetupEvent
  /-- One of the five `Dataset(...)` constructions (lines 68-126). -/
  | buildDataset (cfg : DatasetCfg) : SetupEvent
  /-- `load(model_type=..., ...)` (line 135 or line 175). -/
  | buildModel : SetupEvent
  /-- `model.load_checkpoint(...)` (line 196). -/
  | loadCkpt : SetupEvent
  deriving Repr, DecidableEq

/-- The model/optimizer state `main` holds when the training loop starts:
`epoch`, `step`, `learning_rate`, `metric_dev_best`
(lines 168-170 for a fresh model, line 196 for a restored one). -/
structure InitState where
  epoch : ℕ
  step : ℕ
  learningRate : ℚ
  metricDevBest : ℚ
  restored : Bool
  deriving Repr, DecidableEq

/-- `main`'s setup phase (train.py lines 53-200): config loading with the
`ValueError` guard (lines 58-65), the five dataset constructions
(lines 68-126), and the fresh-vs-restored model branch (lines 133-200).
The arguments are `args.model_save_path` and `args.saved_model_path`;
`p` is the loaded config and `ck` the checkpoint `load_checkpoint`
would return. -/
def mainSetup (modelSavePath savedModelPath : Option String)
    (p : Params) (ck : Checkpoint) :
    Except PyError (List SetupEvent × InitState) :=
  match modelSavePath, savedModelPath with
  | some _, _ =>
    Except.ok
      ([SetupEvent.loadConfig false] ++
         builtDatasets.map SetupEvent.buildDataset ++ [SetupEvent.buildModel],
       { epoch := 1, step := 0, learningRate := p.learningRate,
         metricDevBest := 1, restored := false })
  | none, some _ =>
    Except.ok
      ([SetupEvent.loadConfig true] ++
         builtDatasets.map SetupEvent.buildDataset ++
         [SetupEvent.buildModel, SetupEvent.loadCkpt],
       { epoch := ck.epoch, step := ck.step, learningRate := ck.learningRate,
         metricDevBest := ck.metricDevBest, restored := true })
  | none, none =>
    Except.error (PyError.valueError "Set model_save_path or saved_model_path.")

/-! ## Trace selectors -/

/-- The `save_checkpoint` calls in a trace, with their arguments. -/
def savesOf (acts : List Action) : List (ℕ × ℕ × ℚ × ℚ) :=
  acts.filterMap fun a =>
    match a with
    | Action.saveCheckpoint e st lr b => some (e, st, lr, b)
    | _ => none

/-- The dev metrics observed (returned by the dev-set evaluation) in a
trace. -/
def devMetricsOf (acts : List Action) : List ℚ :=
  acts.filterMap fun a =>
    match a with
    | Action.evalDevCER m => some m
    | _ => none

/-- The held-out-set evaluations (`eval1`/`eval2`/`eval3`) in a trace. -/
def testEvalsOf (acts : List Action) : List ℕ :=
  acts.filterMap fun a =>
    match a with
    | Action.evalTestCER k => some k
    | _ => none

/-- The `decay_lr` calls in a trace, with the arguments passed. -/
def decaysOf (acts : List Action) : List (ℚ × ℕ × ℚ) :=
  acts.filterMap fun a =>
    match a with
    | Action.decayLR lr e v => some (lr, e, v)
    | _ => none

/-- The dev-loss log records in a trace. -/
def logsOf (acts : List Action) : List (ℚ × ℚ) :=
  acts.filterMap fun a =>
    match a with
    | Action.logDevLoss t d => some (t, d)
    | _ => none

/-- The final loop state of an outcome, when the loop did not crash. -/
def Outcome.state? : Outcome → Option LoopState
  | Outcome.running s => some s
  | Outcome.stopped s => some s
  | Outcome.crashed _ => none

/-- The loop state carried by an iteration result, when it did not crash. -/
def IterResult.state? : IterResult → Option LoopState
  | IterResult.next s => some s
  | IterResult.stop s => some s
  | IterResult.crash _ => none

/-- Whether an iteration result leaves the loop (a `break` or an
exception), rather than falling through to the next iteration. -/
def IterResult.exits : IterResult → Bool
  | IterResult.next _ => false
  | _ => true

/-- Run the loop over a list of inputs, returning the final state exactly
when every iteration falls through (no `break`, no exception). -/
def runAll? (p : Params) : LoopState → List StepInput → Option LoopState
  | s, [] => some s
  | s, i :: rest =>
    match (loopIter p s i).2 with
    | IterResult.next s1 => runAll? p s1 rest
    | _ => none

/-- The part of `loss_train_mean` accumulated and not yet logged after the
first `k` iterations: the training losses of the iterations since the
last multiple of `print_step`. -/
def pendingSum (ins : List StepInput) (k pp : ℕ) : ℚ :=
  (((ins.take k).drop (k - k % pp)).map StepInput.lossTrain).sum

/-- The sum of the training losses of the `pp` most recent gradient steps,
up to and including iteration `k`. -/
def recentLossSum (ins : List StepInput) (k pp : ℕ) : ℚ :=
  (((ins.take (k + 1)).drop (k + 1 - pp)).map StepInput.lossTrain).sum

/-! ## Concrete fixtures -/

/-- A non-`word` configuration (CSJ kanji labels) evaluating from the
first epoch. -/
def pKanji : Params :=
  { learningRate := 3, printStep := 100, evalStartEpoch := 1,
    notImprovedPatientEpoch := 5, numEpoch := 3, convertToSgdEpoch := 50,
    labelType := "kanji", pretrainStage := false }

/-- A `word`-label configuration (realistic CSJ value `word_freq10`). -/
def pWord : Params := { pKanji with labelType := "word_freq10" }

/-- A configuration whose evaluation starts only at epoch 5. -/
def pLate : Params := { pKanji with evalStartEpoch := 5 }

/-- A configuration with a single training epoch. -/
def pEnd : Params := { pKanji with numEpoch := 1 }

/-- A configuration logging at every step. -/
def pOne : Params := { pKanji with printStep := 1 }

/-- A configuration logging every second step. -/
def pTwo : Params := { pKanji with printStep := 2 }

/-- The state a retrained run starts from when the restored checkpoint
carries `step = 1` (line 196): checkpoints are written at epoch
boundaries, so the restored step counter is arbitrary modulo
`print_step`, while `loss_train_mean` restarts at `0` (line 236). -/
def sRestored : LoopState :=
  { epoch := 1, step := 1, learningRate := 3, metricDevBest := 1,
    notImprovedEpoch := 0, lossTrainMean := 0 }

/-- An epoch-boundary input whose dev metric `2` does not beat the
initial best of `1`. -/
def iWorse : StepInput :=
  { lossTrain := 2, isNewEpoch := true, devLoss := 3, devMetric := 2,
    lrDecayed := 7 }

/-- An epoch-boundary input with an improving dev metric `0`. -/
def iBetter : StepInput :=
  { lossTrain := 2, isNewEpoch := true, devLoss := 3, devMetric := 0,
    lrDecayed := 7 }

/-- A plain gradient-step input (no epoch boundary). -/
def iPlain : StepInput :=
  { lossTrain := 4, isNewEpoch := false, devLoss := 3, devMetric := 2,
    lrDecayed := 7 }

/-- The loop state after one improving boundary iteration from
`freshState pOne` on `iBetter` (the accumulator was logged and reset). -/
def sAfterBetter : LoopState :=
  { epoch := 2, step := 1, learningRate := 7, metricDevBest := 0,
    notImprovedEpoch := 0, lossTrainMean := 0 }

/-- A one-step input list for exercising the logging analysis. -/
def insOne : List StepInput := [iPlain]

/-! ## Per-iteration lemmas about `loopIter` -/

/-- The dev-loss log records one iteration emits: exactly one, with the
accumulated training loss divided by `print_step` and this iteration's
dev loss, when `(step + 1) % print_step == 0`, and none otherwise. -/
lemma loopIter_logs (p : Params) (s : LoopState) (i : StepInput) :
    logsOf (loopIter p s i).1 =
      if (s.step + 1) % p.printStep = 0
      then [((s.lossTrainMean + i.lossTrain) / (p.printStep : ℚ), i.devLoss)]
      else [] := by
  simp only [loopIter, epochTail]
  split_ifs <;> simp [logsOf, List.filterMap_append]

/-- Every falling-through iteration increments `step` by one and leaves
`loss_train_mean` either reset to `0` (after a log) or increased by this
step's training loss. -/
lemma loopIter_next_step (p : Params) (s : LoopState) (i : StepInput)
    (s1 : LoopState) (h : (loopIter p s i).2 = IterResult.next s1) :
    s1.step = s.step + 1 ∧
    s1.lossTrainMean =
      (if (s.step + 1) % p.printStep = 0 then (0 : ℚ)
       else s.lossTrainMean + i.lossTrain) := by
  simp only [loopIter, epochTail] at h
  split_ifs at h <;>
    simp_all <;> (cases h; simp)

/-- The `save_checkpoint` calls one iteration makes, in the three regimes
of the epoch-boundary handling. -/
lemma loopIter_saves (p : Params) (s : LoopState) (i : StepInput)
    (hb : i.isNewEpoch = true) :
    (s.epoch < p.evalStartEpoch →
      savesOf (loopIter p s i).1 =
        [(s.epoch, s.step + 1, s.learningRate, s.metricDevBest)]) ∧
    (p.evalStartEpoch ≤ s.epoch → hasWord p.labelType = false →
      savesOf (loopIter p s i).1 =
        (if i.devMetric < s.metricDevBest
         then [(s.epoch, s.step + 1, s.learningRate, i.devMetric)]
         else [])) := by
  simp only [loopIter, epochTail]
  constructor <;> intro h1 <;> [skip; intro h2] <;>
    split_ifs <;> simp_all [savesOf, List.filterMap_append] <;> omega

/-- The held-out-set evaluations one iteration makes: none before
`eval_start_epoch`; from `eval_start_epoch` on (with a non-`word` label
type) all three sets exactly when the dev metric strictly improved. -/
lemma loopIter_testEvals (p : Params) (s : LoopState) (i : StepInput)
    (hb : i.isNewEpoch = true) :
    (s.epoch < p.evalStartEpoch → testEvalsOf (loopIter p s i).1 = []) ∧
    (p.evalStartEpoch ≤ s.epoch → hasWord p.labelType = false →
      testEvalsOf (loopIter p s i).1 =
        (if i.devMetric < s.metricDevBest then [1, 2, 3] else [])) := by
  simp only [loopIter, epochTail]
  constructor <;> intro h1 <;> [skip; intro h2] <;>
    split_ifs <;> simp_all [testEvalsOf, List.filterMap_append] <;> omega

set_option maxHeartbeats 2000000 in
/-- The `decay_lr` calls one iteration makes and the learning rate it
leaves behind: no call and an unchanged rate before `eval_start_epoch`;
from `eval_start_epoch` on (with a non-`word` label type) no call when
the early-stopping `break` fires, and otherwise exactly one call, with
the current rate, the current epoch and this epoch's dev metric, whose
answer becomes the new learning rate. -/
lemma loopIter_decays (p : Params) (s : LoopState) (i : StepInput)
    (hb : i.isNewEpoch = true) :
    (s.epoch < p.evalStartEpoch →
      decaysOf (loopIter p s i).1 = [] ∧
      ((loopIter p s i).2.state?).map LoopState.learningRate =
        some s.learningRate) ∧
    (p.evalStartEpoch ≤ s.epoch → hasWord p.labelType = false →
      ((if i.devMetric < s.metricDevBest then 0 else s.notImprovedEpoch + 1) =
          p.notImprovedPatientEpoch →
        decaysOf (loopIter p s i).1 = [] ∧
        ((loopIter p s i).2.state?).map LoopState.learningRate =
          some s.learningRate) ∧
      ((if i.devMetric < s.metricDevBest then 0 else s.notImprovedEpoch + 1) ≠
          p.notImprovedPatientEpoch →
        decaysOf (loopIter p s i).1 =
          [(s.learningRate, s.epoch, i.devMetric)] ∧
        ((loopIter p s i).2.state?).map LoopState.learningRate =
          some i.lrDecayed)) := by
  simp only [loopIter, epochTail]
  refine ⟨fun h1 => ?_, fun h1 h2 => ⟨fun h3 => ?_, fun h3 => ?_⟩⟩ <;>
    split_ifs <;>
      simp_all [decaysOf, IterResult.state?, List.filterMap_append] <;> omega

set_option maxHeartbeats 2000000 in
/-- The dev metrics recorded and the best-metric bookkeeping of one
iteration: whenever the iteration does not crash, the resulting
`metric_dev_best` is the `min`-fold of the observed dev metrics over the
incoming best. -/
lemma loopIter_best (p : Params) (s : LoopState) (i : StepInput)
    (s1 : LoopState) (h : (loopIter p s i).2.state? = some s1) :
    s1.metricDevBest =
      (devMetricsOf (loopIter p s i).1).foldl min s.metricDevBest := by
  simp only [loopIter, epochTail] at h ⊢
  split_ifs at h ⊢ <;>
    simp only [IterResult.state?, Option.some.injEq] at h <;>
    (try cases h) <;>
    simp_all [devMetricsOf, List.filterMap_append, min_def] <;>
    split_ifs <;> first | rfl | linarith

/-- One iteration never writes the `COMPLETE` marker: that happens only
after the loop. -/
lemma loopIter_no_complete (p : Params) (s : LoopState) (i : StepInput) :
    Action.writeComplete ∉ (loopIter p s i).1 := by
  simp only [loopIter, epochTail]
  split_ifs <;> simp

/-- An iteration that reaches one of the two `break` conditions at an
epoch boundary does not fall through to the next iteration. -/
lemma loopIter_exits (p : Params) (s : LoopState) (i : StepInput)
    (hb : i.isNewEpoch = true)
    (h : (p.evalStartEpoch ≤ s.epoch ∧ hasWord p.labelType = false ∧
            (if i.devMetric < s.metricDevBest then 0
             else s.notImprovedEpoch + 1) = p.notImprovedPatientEpoch) ∨
         s.epoch = p.numEpoch) :
    (loopIter p s i).2.exits = true := by
  simp only [loopIter, epochTail]
  split_ifs <;> simp_all [IterResult.exits] <;> omega

/-! ## Arithmetic helpers for the logging analysis -/

lemma succ_mod (k pp : ℕ) (hpp : 0 < pp) :
    (k + 1) % pp = if k % pp + 1 = pp then 0 else k % pp + 1 := by
  have hk : k % pp < pp := Nat.mod_lt _ hpp
  conv_lhs => rw [← Nat.mod_add_div k pp]
  rw [Nat.add_right_comm, Nat.add_mul_mod_self_left]
  split_ifs with h
  · rw [h, Nat.mod_self]
  · exact Nat.mod_eq_of_lt (by omega)

lemma succ_mod_ne_zero (k pp : ℕ) (hpp : 0 < pp) (h : (k + 1) % pp ≠ 0) :
    (k + 1) % pp = k % pp + 1 := by
  have hs := succ_mod k pp hpp
  by_cases hc : k % pp + 1 = pp <;> simp [hc] at hs <;> omega

lemma succ_mod_eq_zero (k pp : ℕ) (hpp : 0 < pp) (h : (k + 1) % pp = 0) :
    k % pp = pp - 1 := by
  have hs := succ_mod k pp hpp
  by_cases hc : k % pp + 1 = pp <;> simp [hc] at hs <;> omega

lemma add_mod_of_dvd (a b n : ℕ) (h : n ∣ a) : (a + b) % n = b % n := by
  obtain ⟨q, rfl⟩ := h
  rw [Nat.mul_add_mod]

/-- After a log, nothing is pending. -/
lemma pendingSum_eq_zero (ins : List StepInput) (k pp : ℕ)
    (h : (k + 1) % pp = 0) : pendingSum ins (k + 1) pp = 0 := by
  unfold pendingSum
  rw [h, Nat.sub_zero, List.drop_eq_nil_of_le, List.map_nil, List.sum_nil]
  exact le_trans (List.length_take_le _ _) (le_refl _)

/-- Between logs, the pending sum grows by the current training loss. -/
lemma pendingSum_succ (ins : List StepInput) (k pp : ℕ) (i : StepInput)
    (hpp : 0 < pp) (hk : k < ins.length) (h : (k + 1) % pp ≠ 0)
    (hi : ins[k]? = some i) :
    pendingSum ins (k + 1) pp = pendingSum ins k pp + i.lossTrain := by
  unfold pendingSum
  rw [succ_mod_ne_zero k pp hpp h]
  have h2 : k + 1 - (k % pp + 1) = k - k % pp := by omega
  rw [h2, List.take_succ, hi, Option.toList_some,
    List.drop_append_of_le_length
      (by rw [List.length_take]; omega : k - k % pp ≤ (ins.take k).length)]
  simp

/-- At a log, the pending sum plus the current training loss is exactly
the sum of the `pp` most recent training losses. -/
lemma pendingSum_log (ins : List StepInput) (k pp : ℕ) (i : StepInput)
    (hpp : 0 < pp) (hk : k < ins.length) (h : (k + 1) % pp = 0)
    (hi : ins[k]? = some i) :
    pendingSum ins k pp + i.lossTrain = recentLossSum ins k pp := by
  unfold pendingSum recentLossSum
  have h1 : k % pp = pp - 1 := succ_mod_eq_zero k pp hpp h
  have h2 : k - k % pp = k + 1 - pp := by omega
  rw [h2, List.take_succ, hi, Option.toList_some,
    List.drop_append_of_le_length
      (by rw [List.length_take]; omega : k + 1 - pp ≤ (ins.take k).length)]
  simp

/-! ## Run-level lemmas -/

lemma runAll_append (p : Params) (l1 l2 : List StepInput) (s : LoopState) :
    runAll? p s (l1 ++ l2) =
      (runAll? p s l1).bind fun s1 => runAll? p s1 l2 := by
  induction l1 generalizing s with
  | nil => simp [runAll?]
  | cons i rest ih =>
    simp only [List.cons_append, runAll?]
    cases (loopIter p s i).2 <;> simp [ih]

/-- The step counter counts iterations, and `loss_train_mean` holds the
pending (not yet logged) training losses: the invariant of the logging
mechanism, for any run whose iterations all fall through and whose
initial step counter is a multiple of `print_step` with an empty
accumulator. -/
lemma runAll_inv (p : Params) (ins : List StepInput) (s0 : LoopState)
    (hp : 0 < p.printStep) (h0 : p.printStep ∣ s0.step)
    (hm : s0.lossTrainMean = 0) :
    ∀ k sk, k ≤ ins.length → runAll? p s0 (ins.take k) = some sk →
      sk.step = s0.step + k ∧
      sk.lossTrainMean = pendingSum ins k p.printStep := by
  intro k
  induction k with
  | zero =>
    intro sk _ hrun
    simp only [List.take_zero, runAll?] at hrun
    cases hrun
    refine ⟨rfl, ?_⟩
    rw [hm]
    simp [pendingSum]
  | succ k ih =>
    intro sk hk hrun
    have hk1 : k < ins.length := by omega
    have hi : ins[k]? = some ins[k] := List.getElem?_eq_getElem hk1
    rw [List.take_succ, hi, Option.toList_some, runAll_append] at hrun
    cases hprev : runAll? p s0 (ins.take k) with
    | none => rw [hprev] at hrun; simp at hrun
    | some sk0 =>
      rw [hprev] at hrun
      simp only [Option.some_bind, runAll?] at hrun
      obtain ⟨hstep, hloss⟩ := ih sk0 (by omega) hprev
      cases hit : (loopIter p sk0 ins[k]).2 with
      | next s1 =>
        rw [hit] at hrun
        simp only [runAll?] at hrun
        cases hrun
        obtain ⟨hstep1, hloss1⟩ := loopIter_next_step p sk0 ins[k] sk hit
        have hmod : (sk0.step + 1) % p.printStep = (k + 1) % p.printStep := by
          rw [hstep, Nat.add_assoc, add_mod_of_dvd _ _ _ h0]
        constructor
        · omega
        · rw [hloss1, hmod]
          by_cases hz : (k + 1) % p.printStep = 0
          · rw [if_pos hz, pendingSum_eq_zero ins k p.printStep hz]
          · rw [if_neg hz, hloss,
              pendingSum_succ ins k p.printStep ins[k] hp hk1 hz hi]
      | stop s1 => rw [hit] at hrun; simp at hrun
      | crash e => rw [hit] at hrun; simp at hrun

/-- The final best metric of any non-crashing run is the `min`-fold of the
observed dev metrics over the initial best. -/
lemma runLoop_best (p : Params) (ins : List StepInput) (s s1 : LoopState)
    (h : (runLoop p s ins).2.state? = some s1) :
    s1.metricDevBest =
      (devMetricsOf (runLoop p s ins).1).foldl min s.metricDevBest := by
  induction ins generalizing s with
  | nil =>
    simp only [runLoop, Outcome.state?, Option.some.injEq] at h
    cases h
    simp [devMetricsOf, runLoop]
  | cons i rest ih =>
    cases hit : loopIter p s i with
    | mk acts r =>
      cases r with
      | next s2 =>
        have h3 : s2.metricDevBest =
            (devMetricsOf acts).foldl min s.metricDevBest := by
          have := loopIter_best p s i s2 (by rw [hit]; simp [IterResult.state?])
          rw [hit] at this
          simpa using this
        simp only [runLoop, hit] at h ⊢
        have h2 := ih s2 h
        simp only [devMetricsOf, List.filterMap_append, List.foldl_append] at h2 h3 ⊢
        rw [h2, ← h3]
      | stop s2 =>
        have h3 : s2.metricDevBest =
            (devMetricsOf acts).foldl min s.metricDevBest := by
          have := loopIter_best p s i s2 (by rw [hit]; simp [IterResult.state?])
          rw [hit] at this
          simpa using this
        simp only [runLoop, hit, Outcome.state?, Option.some.injEq] at h
        cases h
        simp only [runLoop, hit]
        exact h3
      | crash e =>
        simp only [runLoop, hit, Outcome.state?] at h
        cases h

/-- The loop's own trace never contains the `COMPLETE` write. -/
lemma runLoop_no_complete (p : Params) (ins : List StepInput) (s : LoopState) :
    Action.writeComplete ∉ (runLoop p s ins).1 := by
  induction ins generalizing s with
  | nil => simp [runLoop]
  | cons i rest ih =>
    simp only [runLoop]
    have hni := loopIter_no_complete p s i
    cases hit : loopIter p s i with
    | mk acts r =>
      rw [hit] at hni
      cases r <;> simp_all

/-! ## The claims -/

/-- C1, counterexample to the claim as stated: on a run whose only
evaluated epoch returns dev metric `2` (an error rate above the initial
best of `1`, as happens early in training), the tracked best stays `1`,
which is not the minimum dev metric observed (`2`); and no checkpoint is
recorded for that epoch. -/
theorem claim_C1_counterexample :
    devMetricsOf (runLoop pKanji (freshState pKanji) [iWorse]).1 = [2] ∧
    ((runLoop pKanji (freshState pKanji) [iWorse]).2.state?).map
        LoopState.metricDevBest = some 1 ∧
    ¬ ((runLoop pKanji (freshState pKanji) [iWorse]).2.state?).map
        LoopState.metricDevBest = some 2 := by decide

/-- C1, amended: once evaluation has begun (`epoch >= eval_start_epoch`,
with the non-crashing non-`word` label type), an epoch boundary saves a
model checkpoint exactly when that epoch's dev metric is strictly lower
than the best so far, the checkpoint records that metric as the new
best, and the tracked best after any non-crashing run is the minimum of
its initial value and the dev metrics observed. -/
theorem claim_C1_amended :
    (∀ (p : Params) (s : LoopState) (i : StepInput),
      i.isNewEpoch = true → p.evalStartEpoch ≤ s.epoch →
      hasWord p.labelType = false →
      savesOf (loopIter p s i).1 =
        (if i.devMetric < s.metricDevBest
         then [(s.epoch, s.step + 1, s.learningRate, i.devMetric)]
         else []) ∧
      ((loopIter p s i).2.state?).map LoopState.metricDevBest =
        some (min s.metricDevBest i.devMetric)) ∧
    (∀ (p : Params) (ins : List StepInput) (s s1 : LoopState),
      (runLoop p s ins).2.state? = some s1 →
      s1.metricDevBest =
        (devMetricsOf (runLoop p s ins).1).foldl min s.metricDevBest) := by
  constructor
  · intro p s i hb he hw
    refine ⟨(loopIter_saves p s i hb).2 he hw, ?_⟩
    simp only [loopIter, epochTail]
    split_ifs <;>
      simp_all [IterResult.state?, min_def] <;>
      first
        | rfl
        | linarith
        | omega
        | (split_ifs <;> first | rfl | linarith)
  · exact fun p ins s s1 h => runLoop_best p ins s s1 h

/-- C1, witness: an improving boundary saves a checkpoint recording the
new best `0 = min 1 0`, and a one-epoch run's final best is the fold of
the observed metrics. -/
theorem claim_C1_witness :
    (savesOf (loopIter pKanji (freshState pKanji) iBetter).1 =
      (if iBetter.devMetric < (freshState pKanji).metricDevBest
       then [((freshState pKanji).epoch, (freshState pKanji).step + 1,
              (freshState pKanji).learningRate, iBetter.devMetric)]
       else []) ∧
     ((loopIter pKanji (freshState pKanji) iBetter).2.state?).map
        LoopState.metricDevBest =
       some (min (freshState pKanji).metricDevBest iBetter.devMetric)) ∧
    sAfterBetter.metricDevBest =
      (devMetricsOf (runLoop pOne (freshState pOne) [iBetter]).1).foldl min
        (freshState pOne).metricDevBest :=
  ⟨claim_C1_amended.1 pKanji (freshState pKanji) iBetter (by decide) (by decide)
      (by decide),
   claim_C1_amended.2 pOne [iBetter] (freshState pOne) sAfterBetter
      (by decide)⟩

/-- C2: at an epoch boundary, if the updated count of consecutive
evaluated epochs without improvement reaches
`params['not_improved_patient_epoch']`, or the epoch counter has reached
`params['num_epoch']`, the iteration does not fall through: the
`while`-loop exits. -/
theorem claim_C2 : ∀ (p : Params) (s : LoopState) (i : StepInput),
    i.isNewEpoch = true →
    ((p.evalStartEpoch ≤ s.epoch ∧ hasWord p.labelType = false ∧
        (if i.devMetric < s.metricDevBest then 0
         else s.notImprovedEpoch + 1) = p.notImprovedPatientEpoch) ∨
      s.epoch = p.numEpoch) →
    (loopIter p s i).2.exits = true :=
  fun p s i hb h => loopIter_exits p s i hb h

/-- C2, witness: a boundary at the final configured epoch exits the
loop. -/
theorem claim_C2_witness :
    (loopIter pEnd (freshState pEnd) iWorse).2.exits = true :=
  claim_C2 pEnd (freshState pEnd) iWorse (by decide) (Or.inr (by decide))

/-- C3 (code bug): with a `word` label type and the pretrain stage off,
the dev evaluation at an epoch boundary does not call `do_eval_wer`: it
raises, because line 299 reads `param['pretrain_stage']` (an undefined
name; `params` is meant, as line 328 spells it).  With a non-`word`
label type the same boundary runs `do_eval_cer` normally. -/
theorem claim_C3_code_bug :
    hasWord pWord.labelType = true ∧ pWord.pretrainStage = false ∧
    (loopIter pWord (freshState pWord) iWorse).2 =
      IterResult.crash (PyError.nameError "param") ∧
    devMetricsOf (loopIter pWord (freshState pWord) iWorse).1 = [] ∧
    devMetricsOf (loopIter pKanji (freshState pKanji) iWorse).1 =
      [iWorse.devMetric] := by decide

/-- C4, counterexample to the claim as stated: an epoch boundary at an
evaluated epoch whose dev metric does not improve completes the epoch
(the loop falls through) without any `save_checkpoint` call. -/
theorem claim_C4_counterexample :
    iWorse.isNewEpoch = true ∧
    (loopIter pKanji (freshState pKanji) iWorse).2.exits = false ∧
    savesOf (loopIter pKanji (freshState pKanji) iWorse).1 = [] := by decide

/-- C4, amended: every epoch boundary before `eval_start_epoch` saves a
checkpoint; from `eval_start_epoch` on (with a non-`word` label type) a
checkpoint is saved exactly when the dev metric strictly improves. -/
theorem claim_C4_amended : ∀ (p : Params) (s : LoopState) (i : StepInput),
    i.isNewEpoch = true →
    (s.epoch < p.evalStartEpoch →
      savesOf (loopIter p s i).1 =
        [(s.epoch, s.step + 1, s.learningRate, s.metricDevBest)]) ∧
    (p.evalStartEpoch ≤ s.epoch → hasWord p.labelType = false →
      (savesOf (loopIter p s i).1 ≠ [] ↔ i.devMetric < s.metricDevBest)) := by
  intro p s i hb
  obtain ⟨h1, h2⟩ := loopIter_saves p s i hb
  refine ⟨h1, fun he hw => ?_⟩
  rw [h2 he hw]
  split_ifs with h <;> simp [h]

/-- C4, witness: an epoch boundary before `eval_start_epoch` saves the
checkpoint with the current state. -/
theorem claim_C4_witness :
    savesOf (loopIter pLate (freshState pLate) iWorse).1 =
      [((freshState pLate).epoch, (freshState pLate).step + 1,
        (freshState pLate).learningRate, (freshState pLate).metricDevBest)] :=
  (claim_C4_amended pLate (freshState pLate) iWorse (by decide)).1 (by decide)

/-- C5, counterexample to the claim as stated: an epoch boundary whose
dev metric does not improve completes the epoch without any evaluation
of `eval1`, `eval2` or `eval3`. -/
theorem claim_C5_counterexample :
    iWorse.isNewEpoch = true ∧
    (loopIter pKanji (freshState pKanji) iWorse).2.exits = false ∧
    testEvalsOf (loopIter pKanji (freshState pKanji) iWorse).1 = [] := by decide

/-- C5, amended: the three held-out sets are evaluated at an epoch
boundary only from `eval_start_epoch` on and only when the dev metric
reaches a new best, in which case all three are evaluated; otherwise
none is. -/
theorem claim_C5_amended : ∀ (p : Params) (s : LoopState) (i : StepInput),
    i.isNewEpoch = true →
    (s.epoch < p.evalStartEpoch → testEvalsOf (loopIter p s i).1 = []) ∧
    (p.evalStartEpoch ≤ s.epoch → hasWord p.labelType = false →
      testEvalsOf (loopIter p s i).1 =
        (if i.devMetric < s.metricDevBest then [1, 2, 3] else [])) :=
  fun p s i hb => loopIter_testEvals p s i hb

/-- C5, witness: an improving evaluated boundary evaluates all three
held-out sets. -/
theorem claim_C5_witness :
    testEvalsOf (loopIter pKanji (freshState pKanji) iBetter).1 =
      (if iBetter.devMetric < (freshState pKanji).metricDevBest
       then [1, 2, 3] else []) :=
  (claim_C5_amended pKanji (freshState pKanji) iBetter (by decide)).2
    (by decide) (by decide)

/-- C6, counterexample to the claim as stated: an epoch boundary before
`eval_start_epoch` completes the epoch without any `decay_lr` call, and
the learning rate is unchanged. -/
theorem claim_C6_counterexample :
    iWorse.isNewEpoch = true ∧
    (loopIter pLate (freshState pLate) iWorse).2.exits = false ∧
    decaysOf (loopIter pLate (freshState pLate) iWorse).1 = [] := by decide

/-- C6, amended: from `eval_start_epoch` on (with a non-`word` label
type), an epoch boundary that does not trigger early stopping calls
`decay_lr` exactly once, with the current learning rate, the epoch
number and the epoch's dev metric, and its result becomes the learning
rate used thereafter; before `eval_start_epoch` no `decay_lr` call is
made and the rate is unchanged. -/
theorem claim_C6_amended : ∀ (p : Params) (s : LoopState) (i : StepInput),
    i.isNewEpoch = true →
    (s.epoch < p.evalStartEpoch →
      decaysOf (loopIter p s i).1 = [] ∧
      ((loopIter p s i).2.state?).map LoopState.learningRate =
        some s.learningRate) ∧
    (p.evalStartEpoch ≤ s.epoch → hasWord p.labelType = false →
      (if i.devMetric < s.metricDevBest then 0 else s.notImprovedEpoch + 1) ≠
        p.notImprovedPatientEpoch →
      decaysOf (loopIter p s i).1 = [(s.learningRate, s.epoch, i.devMetric)] ∧
      ((loopIter p s i).2.state?).map LoopState.learningRate =
        some i.lrDecayed) :=
  fun p s i hb =>
    ⟨(loopIter_decays p s i hb).1,
     fun he hw hne => ((loopIter_decays p s i hb).2 he hw).2 hne⟩

/-- C6, witness: a non-early-stopping evaluated boundary calls
`decay_lr` with the current rate, epoch `1` and the epoch's metric, and
adopts its answer as the new learning rate. -/
theorem claim_C6_witness :
    decaysOf (loopIter pKanji (freshState pKanji) iWorse).1 =
      [((freshState pKanji).learningRate, (freshState pKanji).epoch,
        iWorse.devMetric)] ∧
    ((loopIter pKanji (freshState pKanji) iWorse).2.state?).map
        LoopState.learningRate = some iWorse.lrDecayed :=
  (claim_C6_amended pKanji (freshState pKanji) iWorse (by decide)).2
    (by decide) (by decide) (by decide)

/-- C7, counterexample to the claim as stated: in a retrained run whose
restored step counter (`1`) is not a multiple of `print_step` (`2`), the
very first gradient step (loss `4`) triggers a log — `(1 + 1) % 2 == 0`
— whose logged training loss is `(0 + 4) / 2 = 2`: the since-restart sum
divided by `print_step`, not the arithmetic mean of the preceding
gradient steps' losses, which is `4` (only one step, of loss `4`,
preceded the log). -/
theorem claim_C7_counterexample :
    sRestored.lossTrainMean = 0 ∧
    sRestored.step % pTwo.printStep ≠ 0 ∧
    logsOf (loopIter pTwo sRestored iPlain).1 = [((2 : ℚ), iPlain.devLoss)] ∧
    iPlain.lossTrain ≠ (2 : ℚ) := by
  refine ⟨rfl, by decide, ?_, by norm_num [iPlain]⟩
  rw [loopIter_logs]
  norm_num [pTwo, pKanji, sRestored, iPlain]

/-- C7, amended: along any run whose iterations all fall through,
starting with an empty loss accumulator and a step counter divisible by
`print_step` (a fresh run starts at step `0`; a retrained run need not
satisfy this), the iteration at index `k` (step counter `s = sk.step`)
computes and logs a dev loss exactly when `(s + 1)` is a multiple of
`print_step`, and the training loss logged alongside it is the
arithmetic mean of the training losses of the `print_step` most recent
gradient steps; the accumulator is reset to zero after each log (the
invariant `runAll_inv`). -/
theorem claim_C7 : ∀ (p : Params) (s0 : LoopState) (ins : List StepInput)
    (k : ℕ) (sk : LoopState) (i : StepInput),
    0 < p.printStep → p.printStep ∣ s0.step → s0.lossTrainMean = 0 →
    runAll? p s0 (ins.take k) = some sk → ins[k]? = some i →
    logsOf (loopIter p sk i).1 =
      (if (sk.step + 1) % p.printStep = 0
       then [(recentLossSum ins k p.printStep / (p.printStep : ℚ), i.devLoss)]
       else []) := by
  intro p s0 ins k sk i hp hdvd hm hrun hi
  have hk : k < ins.length := by
    by_contra hc
    rw [List.getElem?_eq_none (by omega)] at hi
    cases hi
  obtain ⟨hstep, hloss⟩ :=
    runAll_inv p ins s0 hp hdvd hm k sk (le_of_lt hk) hrun
  rw [loopIter_logs]
  have hmod : (sk.step + 1) % p.printStep = (k + 1) % p.printStep := by
    rw [hstep, Nat.add_assoc, add_mod_of_dvd _ _ _ hdvd]
  rw [hmod]
  by_cases hz : (k + 1) % p.printStep = 0
  · rw [if_pos hz, if_pos hz, hloss,
      pendingSum_log ins k p.printStep i hp hk hz hi]
  · rw [if_neg hz, if_neg hz]

/-- C7, witness: with `print_step = 1`, the first gradient step (step
counter 0) logs, and the logged value averages the most recent loss. -/
theorem claim_C7_witness :
    logsOf (loopIter pOne (freshState pOne) iPlain).1 =
      (if ((freshState pOne).step + 1) % pOne.printStep = 0
       then [(recentLossSum insOne 0 pOne.printStep / (pOne.printStep : ℚ),
              iPlain.devLoss)]
       else []) :=
  claim_C7 pOne (freshState pOne) insOne 0 (freshState pOne) iPlain
    (by decide) (by decide) (by decide) (by decide) (by decide)

/-- C8, counterexample to the claim as stated: the script does not build
exactly four `Dataset` objects. -/
theorem claim_C8_counterexample : builtDatasets.length ≠ 4 := by decide

/-- C8, amended: the script builds five dataset iterators — train, dev
and the three evaluation sets — before training starts. -/
theorem claim_C8_amended :
    builtDatasets.length = 5 ∧
    builtDatasets.map DatasetCfg.dataType =
      ["train", "dev", "eval1", "eval2", "eval3"] := by decide

/-- C9: with `--model_save_path` the model starts fresh with `epoch = 1`,
`step = 0` and best dev metric `1`; with only `--saved_model_path` the
state is restored from the checkpoint (epoch, step, learning rate, best
metric); with neither, `main` raises
`ValueError("Set model_save_path or saved_model_path.")` before any
dataset or model construction (the error carries no setup events). -/
theorem claim_C9 :
    (∀ (mp : String) (ssp : Option String) (p : Params) (ck : Checkpoint),
      mainSetup (some mp) ssp p ck =
        Except.ok
          (SetupEvent.loadConfig false ::
             (builtDatasets.map SetupEvent.buildDataset ++
               [SetupEvent.buildModel]),
           { epoch := 1, step := 0, learningRate := p.learningRate,
             metricDevBest := 1, restored := false })) ∧
    (∀ (sp : String) (p : Params) (ck : Checkpoint),
      mainSetup none (some sp) p ck =
        Except.ok
          (SetupEvent.loadConfig true ::
             (builtDatasets.map SetupEvent.buildDataset ++
               [SetupEvent.buildModel, SetupEvent.loadCkpt]),
           { epoch := ck.epoch, step := ck.step,
             learningRate := ck.learningRate,
             metricDevBest := ck.metricDevBest, restored := true })) ∧
    (∀ (p : Params) (ck : Checkpoint),
      mainSetup none none p ck =
        Except.error
          (PyError.valueError "Set model_save_path or saved_model_path.")) :=
  ⟨fun _ _ _ _ => rfl, fun _ _ _ => rfl, fun _ _ => rfl⟩

/-- C10: the `COMPLETE` marker appears in `main`'s trace exactly when the
loop exited through one of its `break`s, and in that case it is written
once, after the whole loop trace; while the loop is still running (or
after a crash) no `COMPLETE` is written. -/
theorem claim_C10 : ∀ (p : Params) (s : LoopState) (ins : List StepInput),
    (Action.writeComplete ∈ (runMain p s ins).1 ↔
      (runMain p s ins).2.isStopped = true) ∧
    ((runLoop p s ins).2.isStopped = true →
      (runMain p s ins).1 = (runLoop p s ins).1 ++ [Action.writeComplete] ∧
      Action.writeComplete ∉ (runLoop p s ins).1) := by
  intro p s ins
  have hnc := runLoop_no_complete p ins s
  refine ⟨⟨fun hmem => ?_, fun hstop => ?_⟩, fun hstop => ⟨?_, hnc⟩⟩
  · by_contra hstop
    simp only [runMain, Bool.not_eq_true] at hmem hstop
    rw [hstop] at hmem
    simp at hmem
    exact hnc hmem
  · simp only [runMain] at hstop ⊢
    rw [hstop]
    simp
  · simp only [runMain]
    rw [hstop]
    simp

/-- C10, witness: a run that exits through the final-epoch `break` writes
`COMPLETE` once, after the loop trace, which itself contains none. -/
theorem claim_C10_witness :
    (runMain pEnd (freshState pEnd) [iWorse]).1 =
      (runLoop pEnd (freshState pEnd) [iWorse]).1 ++ [Action.writeComplete] ∧
    Action.writeComplete ∉ (runLoop pEnd (freshState pEnd) [iWorse]).1 :=
  (claim_C10 pEnd (freshState pEnd) [iWorse]).2 (by decide)

end CsjTrain
